import Mathlib

/-!
# Verification of `lib/gdbproxy.py` (nvim-gdb GDB filtering proxy)

This file gives a shallow embedding of the proxy that runs GDB in a pty
(`lib/gdbproxy.py`) and of its streaming output filter, and proves the
behavioural properties stated in the design documentation.

The proxy's own source provides the event loop (`GdbProxy._process`), the
retrying write helper (`GdbProxy._write`), the control-socket lifecycle and
the terminal-mode setup/teardown in `GdbProxy.__init__`; those parts are
translated directly from the source.  The filter class `StreamFilter`
(imported by `gdbproxy.py` but whose module is not among the sources under
study) is modelled from the specification, as marked in the doc comments.

Bytes are modelled as natural numbers (values of Python `bytes` elements).
-/

/-- A byte of a Python `bytes` object. -/
abbrev Byte := Nat

/-- The byte values of an ASCII string, used to write concrete `bytes`
literals of the source. -/
def strBytes (s : String) : List Byte := s.data.map Char.toNat

/-- Modelled from the spec: the "Filter State" of the output filter
(`StreamFilter`, whose module is imported by `gdbproxy.py` but is not among
the sources under study).  Per the data model it keeps the two construction
parameters (the field `hiddenPat` models the construction parameter
`hidden_prefix`, `resumeMark` models `resume_marker`), a boolean
"currently suppressing" flag, and the provisionally withheld bytes: while
scanning, `held` is the partial match of the hidden pattern pending at a
chunk boundary; while suppressing, `held` is the partial match of the
resume marker (suppressed bytes themselves are discarded, not re-emitted). -/
structure StreamFilter where
  hiddenPat : List Byte
  resumeMark : List Byte
  suppressing : Bool
  held : List Byte
deriving DecidableEq, Repr

/-- Modelled from the spec: the rolling match cursor.  `carryOf pat s` is the
longest suffix of `s` that could still grow into a full occurrence of `pat`,
i.e. the longest suffix of `s` that `pat` starts with.  The matcher may emit
a byte only once it is certain the byte is not part of such a pending match. -/
def carryOf (pat : List Byte) : List Byte → List Byte
  | [] => []
  | b :: t => if (b :: t).isPrefixOf pat then b :: t else carryOf pat t

/-- Modelled from the spec: advance the filter state machine by one input
byte, returning the new state and the bytes that become visible.  While not
suppressing, a completed match of the hidden pattern enters the suppressing
state (the matched bytes, held so far, are discarded); otherwise every byte
that can no longer be part of a pending match is emitted unchanged and in
order.  While suppressing, nothing is emitted; a completed match of the
resume marker returns to scanning, with matching resuming right after it. -/
def StreamFilter.stepByte (st : StreamFilter) (b : Byte) : StreamFilter × List Byte :=
  if st.suppressing then
    let s := st.held ++ [b]
    if s = st.resumeMark then ({ st with suppressing := false, held := [] }, [])
    else ({ st with held := carryOf st.resumeMark s }, [])
  else
    let s := st.held ++ [b]
    if s = st.hiddenPat then ({ st with suppressing := true, held := [] }, [])
    else
      let h := carryOf st.hiddenPat s
      ({ st with held := h }, s.take (s.length - h.length))

/-- Modelled from the spec: `consume(chunk) -> visible_bytes` (the
`StreamFilter.Filter` method used by `GdbProxy.write_stdout`), processing an
arbitrary-sized chunk byte by byte and returning the updated filter together
with the bytes that become visible. -/
def StreamFilter.consume : StreamFilter → List Byte → StreamFilter × List Byte
  | st, [] => (st, [])
  | st, b :: rest =>
    let p := st.stepByte b
    let q := p.1.consume rest
    (q.1, p.2 ++ q.2)

/-- Modelled from the spec: `flush_on_timeout() -> visible_bytes` (the
`StreamFilter.Timeout` method used by `GdbProxy._timeout`).  It releases the
bytes withheld only provisionally by an incomplete match (no more data may
ever complete it), while a confirmed suppressed region — hidden pattern fully
matched, resume marker not yet seen — stays withheld. -/
def StreamFilter.flush_on_timeout (st : StreamFilter) : StreamFilter × List Byte :=
  if st.suppressing then (st, [])
  else ({ st with held := [] }, st.held)

/-- Feed a sequence of chunks to the filter through successive `consume`
calls, collecting the visible output of each call. -/
def StreamFilter.consumeChunks : StreamFilter → List (List Byte) → StreamFilter × List (List Byte)
  | st, [] => (st, [])
  | st, c :: cs =>
    let p := st.consume c
    let q := p.1.consumeChunks cs
    (q.1, p.2 :: q.2)

/-- Iterate `flush_on_timeout` a number of times, concatenating the released
bytes, to reason about repeated timeout flushes with no intervening data. -/
def StreamFilter.flushN : Nat → StreamFilter → StreamFilter × List Byte
  | 0, st => (st, [])
  | n + 1, st =>
    let p := st.flush_on_timeout
    let q := StreamFilter.flushN n p.1
    (q.1, p.2 ++ q.2)

/-- `gdbproxy.py:46` — the hidden command marker `b"server nvim-gdb-"` passed
to the filter's constructor. -/
def gdbHiddenBytes : List Byte := strBytes "server nvim-gdb-"

/-- `gdbproxy.py:47` — the resume marker `b"\n(gdb) "` passed to the filter's
constructor. -/
def gdbResumeBytes : List Byte := strBytes "\n(gdb) "

/-- `gdbproxy.py:46-47` — the filter exactly as constructed by
`GdbProxy.__init__`: `StreamFilter.StreamFilter(b"server nvim-gdb-",
b"\n(gdb) ")`, the only construction site in the program, starting in the
scanning state with nothing withheld. -/
def mkGdbFilter : StreamFilter :=
  { hiddenPat := gdbHiddenBytes
    resumeMark := gdbResumeBytes
    suppressing := false
    held := [] }

/-- The two real-terminal-side descriptors the proxy writes to:
`pty.STDOUT_FILENO` (visible output to the user) and `self.master_fd`
(input to the child process). -/
inductive Fd where
  | stdout
  | master
deriving DecidableEq, Repr

/-- The readiness outcome of one `select.select` call in `GdbProxy._process`
(`gdbproxy.py:94`): for each of the three watched descriptors — the child pty
master, the real terminal's stdin, and the control socket — either `none`
(not ready) or `some data` (ready, with the bytes the subsequent read or
`recvfrom` delivers). -/
structure Ready where
  masterData : Option (List Byte)
  stdinData : Option (List Byte)
  sockData : Option (List Byte)

/-- Embeds the body of one iteration of the event loop `GdbProxy._process`
(`gdbproxy.py:102-114`): if no descriptor was ready (`if not rfds`), call
`_timeout`, which writes `self.filter.Timeout()` to stdout; otherwise handle
the ready descriptors in source order — child pty data goes through
`master_read -> write_stdout` (filtered, then written to stdout), stdin data
through `stdin_read -> write_master` (written verbatim to the child), and a
control-socket payload through `write_master` (verbatim to the child).
Returns the updated filter state and the writes performed, in order. -/
def processIteration (fil : StreamFilter) (r : Ready) : StreamFilter × List (Fd × List Byte) :=
  if r.masterData = none ∧ r.stdinData = none ∧ r.sockData = none then
    let p := fil.flush_on_timeout
    (p.1, [(Fd.stdout, p.2)])
  else
    let p :=
      match r.masterData with
      | some d =>
        let q := fil.consume d
        (q.1, [(Fd.stdout, q.2)])
      | none => (fil, ([] : List (Fd × List Byte)))
    let w2 := match r.stdinData with | some d => [(Fd.master, d)] | none => []
    let w3 := match r.sockData with | some d => [(Fd.master, d)] | none => []
    (p.1, p.2 ++ w2 ++ w3)

/-- The bytes an iteration writes to the child (the master pty descriptor),
in order. -/
def masterWrites (ws : List (Fd × List Byte)) : List Byte :=
  (ws.filterMap (fun w => if w.1 = Fd.master then some w.2 else none)).flatten

/-- Embeds `GdbProxy._write` (`gdbproxy.py:116-120`):
`while data: n = os.write(fd, data); data = data[n:]`.  `accept` tells how
many bytes the OS-level write accepts for the remaining data (`os.write`'s
return value); the fuel bounds the number of loop iterations, and
`data.length` iterations suffice whenever every write accepts at least one
byte.  Returns the successive pieces transmitted, in order. -/
def writeRetry (accept : List Byte → Nat) : Nat → List Byte → List (List Byte)
  | _, [] => []
  | 0, _ => []
  | fuel + 1, d => d.take (accept d) :: writeRetry accept fuel (d.drop (accept d))

/-- `GdbProxy._write` run with enough fuel for any acceptance schedule that
makes progress on every call. -/
def writeAll (accept : List Byte → Nat) (data : List Byte) : List (List Byte) :=
  writeRetry accept data.length data

/-- The ways the event loop `GdbProxy._process` can end.  `streamEnd`: the
child closed its side of the pty, so `os.read` on the master raises
`OSError` (an `Exception`) — the normal termination path.  `internalError`:
any other `Exception` escaping the loop, e.g. a fatal descriptor-level I/O
error.  `externalInterrupt`: a `BaseException` that is not an `Exception`,
e.g. `KeyboardInterrupt` from an external SIGINT. -/
inductive ProcExit where
  | streamEnd
  | internalError
  | externalInterrupt
deriving DecidableEq, Repr

/-- `gdbproxy.py:60-63` — whether `try: self._process() except Exception:
pass` catches the way the loop ended: `except Exception` catches every
`Exception` but not a bare `BaseException` such as `KeyboardInterrupt`. -/
def caughtAtLoopBoundary : ProcExit → Bool
  | .streamEnd => true
  | .internalError => true
  | .externalInterrupt => false

/-- What the process run observably leaves behind: whether the real
terminal's original mode snapshot was restored (`tcsetattr` reached), and
whether the process exit status is zero. -/
structure SessionResult where
  modeRestored : Bool
  exitZero : Bool
deriving DecidableEq, Repr

/-- Embeds the exit paths of `GdbProxy.__init__` (`gdbproxy.py:56-77`)
together with `__main__` (`gdbproxy.py:144-154`).  `_process` runs inside
`try: ... except Exception: pass`; the `tcsetattr` restore of the saved mode
is the next straight-line statement, reached exactly when the exception was
caught, and then `__init__` returns normally.  `__main__` installs no
handler and calls no `sys.exit`, so a caught loop exit lets the process end
with status zero, while an uncaught exception terminates the interpreter
with a nonzero status — without ever reaching the restore. -/
def runSession (e : ProcExit) : SessionResult :=
  if caughtAtLoopBoundary e then { modeRestored := true, exitZero := true }
  else { modeRestored := false, exitZero := false }

/-- Linux value of `errno.EAGAIN` ("resource temporarily unavailable"). -/
def EAGAIN : Nat := 11

/-- Linux value of `errno.EINTR` ("interrupted system call"), the errno a
wait call interrupted by signal delivery fails with. -/
def EINTR : Nat := 4

/-- What the loop does with a failed wait call. -/
inductive WaitErrorAction where
  | retry
  | abort
deriving DecidableEq, Repr

/-- Embeds the `select.error` handler of `GdbProxy._process`
(`gdbproxy.py:95-100`): `if e[0] == errno.EAGAIN: continue else: raise` —
the iteration is retried exactly when the error's errno equals `EAGAIN`;
every other errno is re-raised, ending the loop. -/
def onSelectError (err : Nat) : WaitErrorAction :=
  if err == EAGAIN then .retry else .abort

/-- Outcome of the `os.unlink(server_address)` attempt made before binding
the control socket: whether the unlink raised `OSError`, and whether
`os.path.exists(server_address)` still holds afterwards. -/
structure UnlinkAttempt where
  raised : Bool
  existsAfter : Bool
deriving DecidableEq, Repr

/-- Embeds the control-socket bind sequence of `GdbProxy.__init__`
(`gdbproxy.py:31-41`): first `os.unlink(server_address)` inside `try/except
OSError`, re-raising only when the path still exists after a failed unlink
(the spec's `BindError`, modelled as `.error ()`); then the fresh datagram
socket binds the now-absent path. -/
def bindControlSocket (u : UnlinkAttempt) : Except Unit Unit :=
  if u.raised && u.existsAfter then .error ()
  else .ok ()

/-- Embeds the shutdown cleanup of `GdbProxy.__init__` (`gdbproxy.py:72-77`):
`os.unlink(server_address)` inside `try/except OSError: pass`, so the
removal completes whether or not the unlink raises (in particular when the
path was already absent). -/
def cleanupControlSocket (unlinkRaised : Bool) : Except Unit Unit :=
  if unlinkRaised then .ok () else .ok ()

/-- The concrete byte stream of the suppression test: ordinary output, then
the hidden marker, an injected command with its result, the resume marker,
and ordinary output again. -/
def c2Input : List Byte :=
  strBytes "foo\n" ++ gdbHiddenBytes ++ strBytes "cmd\nresult\n" ++ gdbResumeBytes
    ++ strBytes "\nbar\n"

/-- The visible bytes the filter must produce from `c2Input`. -/
def c2Visible : List Byte := strBytes "foo\n" ++ strBytes "\nbar\n"

/-- A filter state that has consumed exactly the first half of the hidden
marker: its bytes are withheld only provisionally. -/
def halfHiddenState : StreamFilter := (mkGdbFilter.consume (strBytes "server n")).1

/-- A filter state inside a confirmed suppressed region: the hidden marker
fully matched, the resume marker not yet seen. -/
def suppressedState : StreamFilter :=
  (mkGdbFilter.consume (strBytes "server nvim-gdb-cmd\nres")).1

/-- Consuming a concatenation equals consuming the pieces in sequence: the
final state agrees and the visible outputs concatenate. -/
theorem StreamFilter.consume_append (st : StreamFilter) (a b : List Byte) :
    st.consume (a ++ b)
      = (((st.consume a).1.consume b).1,
         (st.consume a).2 ++ ((st.consume a).1.consume b).2) := by
  induction a generalizing st with
  | nil => simp [StreamFilter.consume]
  | cons x t ih => simp [StreamFilter.consume, ih, List.append_assoc]

/-- Feeding a chunk list through successive `consume` calls is the same as
one `consume` of the flattened stream: same final state, and the visible
outputs flatten to the same byte sequence. -/
theorem StreamFilter.consumeChunks_eq (st : StreamFilter) (cs : List (List Byte)) :
    (st.consumeChunks cs).1 = (st.consume cs.flatten).1 ∧
    ((st.consumeChunks cs).2).flatten = (st.consume cs.flatten).2 := by
  induction cs generalizing st with
  | nil => simp [StreamFilter.consumeChunks, StreamFilter.consume]
  | cons c cs ih =>
    simp [StreamFilter.consumeChunks, StreamFilter.consume_append,
      (ih (st.consume c).1).1, (ih (st.consume c).1).2]

/-- Claim C1: the teardown after the event loop restores the terminal's
original mode on the normal child end-of-stream path and on any internal
error (both raise `Exception`s, caught by the loop boundary's `except
Exception`), but NOT on an external interrupt: a `BaseException` such as
`KeyboardInterrupt` is not an `Exception`, escapes `__init__` before the
`tcsetattr` restore, and leaves the terminal raw — the claim's "every exit
path" fails on the external-interrupt path. -/
theorem c1_mode_restore_paths :
    (runSession .streamEnd).modeRestored = true ∧
    (runSession .internalError).modeRestored = true ∧
    (runSession .externalInterrupt).modeRestored = false := by
  decide

/-- Claim C2: for the input stream `"foo\n" + hidden_prefix +
"cmd\nresult\n" + resume_marker + "\nbar\n"`, consuming the stream in any
number of chunks yields visible output exactly `"foo\n" + "\nbar\n"`: the
region from the hidden marker through the resume marker, both inclusive, is
fully suppressed, and all bytes outside it are emitted unchanged and in
order. -/
theorem c2_suppressed_region (cs : List (List Byte)) (h : cs.flatten = c2Input) :
    ((mkGdbFilter.consumeChunks cs).2).flatten = c2Visible := by
  rw [(StreamFilter.consumeChunks_eq mkGdbFilter cs).2, h]
  decide

/-- Witness for C2 at a concrete two-chunk split of the input stream. -/
theorem c2_suppressed_region_witness :
    ([c2Input.take 9, c2Input.drop 9].flatten = c2Input) ∧
    ((mkGdbFilter.consumeChunks [c2Input.take 9, c2Input.drop 9]).2).flatten = c2Visible :=
  ⟨by decide, c2_suppressed_region [c2Input.take 9, c2Input.drop 9] (by decide)⟩

/-- Claim C3: the filter's visible output depends only on the logical input
stream, not on chunk boundaries: for every starting state, any two chunk
lists carrying the same byte stream produce the same concatenated visible
output (and the same final filter state). -/
theorem c3_chunking_independent (st : StreamFilter) (cs1 cs2 : List (List Byte))
    (h : cs1.flatten = cs2.flatten) :
    ((st.consumeChunks cs1).2).flatten = ((st.consumeChunks cs2).2).flatten ∧
    (st.consumeChunks cs1).1 = (st.consumeChunks cs2).1 := by
  constructor
  · rw [(StreamFilter.consumeChunks_eq st cs1).2, (StreamFilter.consumeChunks_eq st cs2).2, h]
  · rw [(StreamFilter.consumeChunks_eq st cs1).1, (StreamFilter.consumeChunks_eq st cs2).1, h]

/-- Witness for C3: a byte-at-a-time chunking of the hidden marker's start
against the single-chunk delivery. -/
theorem c3_chunking_independent_witness :
    ([strBytes "ser", strBytes "ver n"].flatten = [strBytes "serve", strBytes "r n"].flatten) ∧
    ((mkGdbFilter.consumeChunks [strBytes "ser", strBytes "ver n"]).2).flatten
      = ((mkGdbFilter.consumeChunks [strBytes "serve", strBytes "r n"]).2).flatten :=
  ⟨by decide, (c3_chunking_independent mkGdbFilter _ _ (by decide)).1⟩

/-- Claim C4: `flush_on_timeout` releases, unchanged, exactly the bytes
withheld only provisionally by an incomplete match (the `held` buffer of a
scanning state, which it resets), and releases nothing of a confirmed
suppressed region: while suppressing, any number of timeout flushes leaves
the state untouched and emits nothing.  The event loop's timeout branch
invokes the flush and writes the released bytes to stdout. -/
theorem c4_timeout_flush (st : StreamFilter) (n : Nat) :
    (st.suppressing = false →
      st.flush_on_timeout = ({ st with held := [] }, st.held)) ∧
    (st.suppressing = true →
      StreamFilter.flushN n st = (st, [])) ∧
    (processIteration st { masterData := none, stdinData := none, sockData := none }
      = (st.flush_on_timeout.1, [(Fd.stdout, st.flush_on_timeout.2)])) := by
  refine ⟨?_, ?_, ?_⟩
  · intro h
    simp [StreamFilter.flush_on_timeout, h]
  · intro h
    induction n with
    | zero => simp [StreamFilter.flushN]
    | succ k ih => simp [StreamFilter.flushN, StreamFilter.flush_on_timeout, h, ih]
  · simp [processIteration]

/-- Witness for C4: a state holding the first half of the hidden marker
(provisional — flushed unchanged) and a state inside a confirmed suppressed
region (three consecutive timeout flushes release nothing and change
nothing). -/
theorem c4_timeout_flush_witness :
    (halfHiddenState.suppressing = false ∧
      halfHiddenState.held = strBytes "server n" ∧
      halfHiddenState.flush_on_timeout
        = ({ halfHiddenState with held := [] }, halfHiddenState.held)) ∧
    (suppressedState.suppressing = true ∧
      StreamFilter.flushN 3 suppressedState = (suppressedState, [])) :=
  ⟨⟨by decide, by decide, (c4_timeout_flush halfHiddenState 3).1 (by decide)⟩,
   ⟨by decide, (c4_timeout_flush suppressedState 3).2.1 (by decide)⟩⟩

/-- Claim C5: every chunk read from the real terminal's input and every
payload received on the control channel is forwarded to the child verbatim —
for every readiness outcome, the bytes an iteration writes to the child are
exactly the stdin chunk followed by the control payload, byte-for-byte; and
an iteration handling only such input neither consults nor changes the
filter, which applies only to the child's output. -/
theorem c5_input_forwarded_verbatim (fil : StreamFilter) (r : Ready) :
    masterWrites (processIteration fil r).2
      = r.stdinData.getD [] ++ r.sockData.getD [] ∧
    (∀ d, processIteration fil { masterData := none, stdinData := some d, sockData := none }
        = (fil, [(Fd.master, d)])) ∧
    (∀ d, processIteration fil { masterData := none, stdinData := none, sockData := some d }
        = (fil, [(Fd.master, d)])) := by
  refine ⟨?_, ?_, ?_⟩
  · rcases r with ⟨m, s, k⟩
    cases m <;> cases s <;> cases k <;>
      simp [processIteration, masterWrites]
  · intro d
    simp [processIteration, masterWrites]
  · intro d
    simp [processIteration, masterWrites]

/-- Claim C6: `_write` retries partial writes until everything is
transmitted: if every OS-level write accepts at least one byte of (and at
most all of) the remaining data, the pieces transmitted concatenate exactly
to the original data — all bytes sent, in order, none duplicated or
dropped. -/
theorem c6_write_retries_all_bytes (accept : List Byte → Nat) (data : List Byte)
    (h : ∀ d : List Byte, d ≠ [] → 1 ≤ accept d ∧ accept d ≤ d.length) :
    (writeAll accept data).flatten = data := by
  suffices H : ∀ fuel d, d.length ≤ fuel → (writeRetry accept fuel d).flatten = d by
    exact H data.length data le_rfl
  intro fuel
  induction fuel with
  | zero =>
    intro d hd
    have : d = [] := List.length_eq_zero.mp (Nat.le_zero.mp hd)
    subst this
    simp [writeRetry]
  | succ k ih =>
    intro d hd
    match d with
    | [] => simp [writeRetry]
    | b :: t =>
      have hne : (b :: t : List Byte) ≠ [] := by simp
      obtain ⟨h1, h2⟩ := h (b :: t) hne
      have hdrop : ((b :: t).drop (accept (b :: t))).length ≤ k := by
        rw [List.length_drop]
        omega
      calc (writeRetry accept (k + 1) (b :: t)).flatten
          = (b :: t).take (accept (b :: t))
              ++ (writeRetry accept k ((b :: t).drop (accept (b :: t)))).flatten := by
            simp [writeRetry]
        _ = (b :: t).take (accept (b :: t)) ++ (b :: t).drop (accept (b :: t)) := by
            rw [ih _ hdrop]
        _ = b :: t := List.take_append_drop _ _

/-- Witness for C6: a one-byte-at-a-time acceptance schedule transmits a
three-byte payload completely. -/
theorem c6_write_retries_witness :
    (writeAll (fun _ => 1) (strBytes "abc")).flatten = strBytes "abc" :=
  c6_write_retries_all_bytes (fun _ => 1) (strBytes "abc")
    (fun _ hd => ⟨le_refl 1, List.length_pos.mpr hd⟩)

/-- Claim C7: the loop's wait-error handler retries only `EAGAIN`, not an
interruption by signal delivery: a wait that fails with `EINTR`
("interrupted system call", the errno of a signal-interrupted call, and the
very condition the handler's own comment names) is re-raised and aborts the
loop instead of being retried; the retried errno is `EAGAIN`. -/
theorem c7_interrupted_wait_aborts :
    onSelectError EINTR = .abort ∧ onSelectError EAGAIN = .retry := by
  decide

/-- Claim C8: the control-socket lifecycle — a stale leftover path is removed
by the unlink before binding, so the bind succeeds; when the unlink fails and
the path is truly still occupied, the bind sequence fails with the bind
error; when the unlink fails only because the path is already absent, the
bind proceeds; and the shutdown cleanup completes whether or not its unlink
raises (tolerating the path's prior absence). -/
theorem c8_socket_lifecycle :
    bindControlSocket { raised := false, existsAfter := false } = .ok () ∧
    bindControlSocket { raised := true, existsAfter := true } = .error () ∧
    bindControlSocket { raised := true, existsAfter := false } = .ok () ∧
    cleanupControlSocket true = .ok () ∧
    cleanupControlSocket false = .ok () :=
  ⟨rfl, rfl, rfl, rfl, rfl⟩

/-- Claim C9, counterexample: a fatal descriptor-level I/O error ending the
loop is NOT propagated to the caller as a non-zero outcome — `except
Exception: pass` swallows it, `__init__` returns, and the process exits
zero. -/
theorem c9_fatal_error_exits_zero :
    (runSession .internalError).exitZero = true := by
  decide

/-- Claim C9, amended: a fatal descriptor-level I/O error ends the loop and
the terminal mode is restored, but the failure is caught and discarded at
the loop boundary, so the process exits zero rather than propagating a
non-zero outcome; child end-of-stream, the normal termination path, likewise
restores the mode and exits zero, not reported as a failure. -/
theorem c9_fatal_error_swallowed :
    (runSession .internalError).modeRestored = true ∧
    (runSession .internalError).exitZero = true ∧
    (runSession .streamEnd).modeRestored = true ∧
    (runSession .streamEnd).exitZero = true := by
  decide

/-- Claim C10: the one and only filter construction of the program uses
exactly the sentinel byte strings `b"server nvim-gdb-"` and `b"\n(gdb) "`
(given here by numeric byte values), and starts out scanning with nothing
withheld. -/
theorem c10_fixed_sentinels :
    mkGdbFilter.hiddenPat
      = [115, 101, 114, 118, 101, 114, 32, 110, 118, 105, 109, 45, 103, 100, 98, 45] ∧
    mkGdbFilter.resumeMark = [10, 40, 103, 100, 98, 41, 32] ∧
    mkGdbFilter.suppressing = false ∧
    mkGdbFilter.held = [] := by
  decide
